import Mathlib

/-!
Verification of the `reverse_proxy_server` subcommand of quic-tunnel
(`src/subcommands/reverse_proxy_server.rs`), a QUIC reverse-tunnel relay.
The file shallowly embeds the data model and the control flow of
`ReverseProxyServerSubCommand::main` and `handle_quic_connection`:
stateful async code is modelled as explicit step functions or step
relations over explicit state; fallible code returns `Except`/`Option`;
the flume MPMC channel is modelled as an explicit queue with atomic
dequeue steps.  Definitions come first, the theorems about them after.
-/

namespace QuicTunnel

/-- Modelled from the spec: `quic_tunnel::stream::Stream` is not under
`src/`; the source uses its constructors `Stream::Tcp(stream)` and
`Stream::Unix(stream)`, and the spec (section 3, PendingStream) describes it
as a tagged union over the supported local transport families (TCP-like and
Unix-domain-like; UDP intentionally absent).  The payload (an accepted OS
connection) is abstracted as a numeric identity. -/
inductive Stream where
  | tcp (connId : Nat)
  | unix (connId : Nat)
deriving DecidableEq, Repr

/-- Modelled from the spec: `quic_tunnel::counters::TunnelCounters` is not
under `src/`; the spec (section 3, TrafficCounters; section 6, counters
interface) describes process-wide byte counters updated by forwarders and
read by a background stats loop.  Two directional byte totals. -/
structure TunnelCounters where
  sentBytes : Nat
  recvBytes : Nat
deriving DecidableEq, Repr

/-- Modelled from the spec: `quic_tunnel::compress::CompressAlgo` is not
under `src/`; the spec (section 6) describes it as an enum, `none` or a
named algorithm, default `none`. -/
inductive CompressAlgo where
  | noCompress
  | named (algo : String)
deriving DecidableEq, Repr

/-- Modelled from the spec: `quic_tunnel::quic::CongestionMode` is not under
`src/`; the spec (section 6) describes it as an enum with a standard
congestion-control default (`NewReno` in the source's argh default). -/
inductive CongestionMode where
  | newReno
  | other (mode : String)
deriving DecidableEq, Repr

/-- The configuration carried by `ReverseProxyServerSubCommand`
(lines 20-52): certificate prefix, QUIC bind address, the three optional
front-end listen targets, congestion mode and compression mode.  Socket
addresses are abstracted as numeric identities, the Unix path as a string. -/
structure ServerConfig where
  certName : String
  quicAddr : Nat
  tcpListen : Option Nat
  udpListen : Option Nat
  unixListen : Option String
  congestionMode : CongestionMode
  compress : CompressAlgo
deriving DecidableEq, Repr

/-- Observable actions of `main`'s startup sequence, used to state in which
order validation, queue creation, endpoint construction and socket binding
happen. -/
inductive MainAction where
  | createQueue
  | buildEndpoint (quicAddr : Nat)
  | bindTcp (addr : Nat)
  | bindUnix (path : String)
deriving DecidableEq, Repr

/-- The error message of the `anyhow::bail!` at line 57. -/
def configValidationError : String := "specify tcp_listen or socket_listen or both"

/-- The startup prefix of `ReverseProxyServerSubCommand::main`
(lines 56-74): first the validation `if self.tcp_listen.is_none() &&
self.unix_listen.is_none() { bail }`, and only past it the creation of the
flume channel (line 60) and the QUIC endpoint (line 66).  Binds of the
front-end sockets happen later still, inside the spawned listener tasks.
Returns the actions performed together with the configuration error, if
any. -/
def mainStart (cfg : ServerConfig) : List MainAction × Option String :=
  if cfg.tcpListen.isNone && cfg.unixListen.isNone then
    ([], some configValidationError)
  else
    ([MainAction.createQueue, MainAction.buildEndpoint cfg.quicAddr], none)

/-- A log record.  The source logs with `tracing`; only the fact and content
of a log matter to the claims, not the level. -/
inductive LogEntry where
  | logError (msg : String)
  | logTraceSuccess (aToB bToA : Nat)
deriving DecidableEq, Repr

/-- Status of a front-end listener task's body. -/
inductive ListenerEnd where
  | running
  | failedSend
deriving DecidableEq, Repr

/-- Outcome of one `accept().await` call on a bound listener. -/
inductive AcceptEvent where
  | accepted (connId : Nat)
  | acceptFailed (err : String)
deriving DecidableEq, Repr

/-- One iteration of the accept loop of a bound front-end listener
(TCP: lines 111-119, Unix: lines 159-167 — both have the same shape,
differing only in the `Stream` variant used to wrap the connection; the
Unix branch even reuses the message `"tcp accept failed"`).  `wrap` is the
family's `Stream` constructor, `qopen` whether the flume channel still has
a live receiver, `q` the channel's contents.  On `Ok((stream, _))` the
stream is wrapped and sent into the channel; `send_async` fails exactly
when the channel is disconnected, and the `?` then ends the task body with
that error.  On `Err(err)` the error is logged and the loop continues. -/
def listenerStep (wrap : Nat → Stream) (qopen : Bool) (q : List Stream)
    (st : ListenerEnd) (ev : AcceptEvent) (logs : List LogEntry) :
    ListenerEnd × List Stream × List LogEntry :=
  match st with
  | .failedSend => (.failedSend, q, logs)
  | .running =>
    match ev with
    | .acceptFailed _ => (.running, q, logs ++ [LogEntry.logError "tcp accept failed"])
    | .accepted c =>
        if qopen then (.running, q ++ [wrap c], logs)
        else (.failedSend, q, logs)

/-- A listener task as spawned by `main`: either the real accept-loop task
for a configured bind target, or — when the transport family is not
configured — a spawned `std::future::pending::<anyhow::Result<()>>()`
placeholder (lines 123-127, 144-148, 171-175). -/
inductive ListenerTask (α : Type) where
  | real (cfg : α)
  | placeholder
deriving DecidableEq, Repr

/-- What polling a task yields. -/
inductive PollResult where
  | stillPending
  | ready (r : Except String Unit)
deriving Repr

/-- `std::future::pending` never resolves: polled any number of times, it
is still pending. -/
def placeholderPoll (_polls : Nat) : PollResult := .stillPending

/-- `std::future::pending` performs no action: no bind, no accept, no
enqueue, however often it is polled. -/
def placeholderActions (_polls : Nat) : List MainAction := []

/-- The TCP listener task of `main` (lines 101-127): the real bound
accept-loop when `tcp_listen` is set, the pending placeholder otherwise. -/
def mkTcpListenerTask (cfg : Option Nat) : ListenerTask Nat :=
  match cfg with
  | some a => .real a
  | none => .placeholder

/-- The UDP listener task of `main` (lines 130-148): a (stub) task when
`udp_listen` is set, the pending placeholder otherwise. -/
def mkUdpListenerTask (cfg : Option Nat) : ListenerTask Nat :=
  match cfg with
  | some a => .real a
  | none => .placeholder

/-- The Unix listener task of `main` (lines 151-175): the real bound
accept-loop when `unix_listen` is set, the pending placeholder otherwise. -/
def mkUnixListenerTask (cfg : Option String) : ListenerTask String :=
  match cfg with
  | some p => .real p
  | none => .placeholder

/-- The five supervised tasks of `main`, in the order their handles are
declared and raced in the `select!` (lines 179-195). -/
inductive TaskId where
  | quicEndpoint
  | tcpListener
  | udpListener
  | unixListener
  | stats
deriving DecidableEq, Repr

/-- How the winning branch of the `select!` finished: its
`tokio::task::JoinHandle` yields a normal result, an error result, or a
join error (panic or cancellation of the task). -/
inductive JoinOutcome where
  | finishedOk
  | finishedErr (e : String)
  | joinFailed (e : String)
deriving DecidableEq, Repr

/-- Observable actions of the supervisor (`main` after spawning, lines
179-205): logging the finished task, closing the QUIC endpoint with a
reason code, aborting a task handle, or (never performed, but expressible)
spawning a task. -/
inductive SupAction where
  | logTaskFinished (t : TaskId) (o : JoinOutcome)
  | closeEndpoint (code : Nat) (msg : String)
  | abortTask (t : TaskId)
  | spawnTask (t : TaskId)
deriving DecidableEq, Repr

/-- All five supervised task handles, in source order. -/
def allTasks : List TaskId :=
  [.quicEndpoint, .tcpListener, .udpListener, .unixListener, .stats]

/-- The tail of `ReverseProxyServerSubCommand::main` (lines 179-205):
whichever handle the `select!` resolves first, its arm logs the result;
then `endpoint.close(0u32.into(), b"server done")` runs, then every one of
the five handles is aborted, and `main` returns `Ok(())`. -/
def superviseShutdown (winner : TaskId) (o : JoinOutcome) :
    List SupAction × Except String Unit :=
  (SupAction.logTaskFinished winner o ::
      SupAction.closeEndpoint 0 "server done" :: allTasks.map SupAction.abortTask,
    Except.ok ())

/-- State of the fan-in channel created by `flume::unbounded::<Stream>()`
(line 60) together with its consumers.  `queue` is the channel's current
contents, `delivered` records every delivery as a pair of the consuming
Tunnel Connection Handler's identity and the item, `enqHist` is the history
of all enqueues, and `qopen` whether the channel is still connected. -/
structure FanInState where
  queue : List Stream
  delivered : List (Nat × Stream)
  enqHist : List Stream
  qopen : Bool
deriving DecidableEq, Repr

/-- The initial state of the fan-in channel: empty and open. -/
def FanInState.start : FanInState := ⟨[], [], [], true⟩

/-- Interleaved steps of the fan-in system: any producer (a front-end
listener at line 115 or 163) may enqueue while the channel is open; any
consumer (a Serving handler at line 226, identified by `hid`) may
atomically dequeue the head of the channel — the channel hands each entry
to exactly one receiver; and the channel may become disconnected.  The
flume channel is the unbounded MPMC queue whose contract the spec's
section 4.2 states; its atomic-dequeue behaviour is the interface the
source relies on at lines 115, 163 and 226. -/
inductive FanInStep : FanInState → FanInState → Prop where
  | enqueue (s : FanInState) (i : Stream) (ho : s.qopen = true) :
      FanInStep s ⟨s.queue ++ [i], s.delivered, s.enqHist ++ [i], s.qopen⟩
  | dequeue (s : FanInState) (hid : Nat) (i : Stream) (rest : List Stream)
      (hq : s.queue = i :: rest) :
      FanInStep s ⟨rest, (hid, i) :: s.delivered, s.enqHist, s.qopen⟩
  | disconnect (s : FanInState) :
      FanInStep s ⟨s.queue, s.delivered, s.enqHist, false⟩

/-- States reachable from the initial fan-in state by any interleaving of
enqueues, dequeues and disconnection. -/
inductive FanInReach : FanInState → Prop where
  | start : FanInReach FanInState.start
  | step (s t : FanInState) : FanInReach s → FanInStep s t → FanInReach t

/-- A transport-level error failing the QUIC handshake. -/
inductive ConnError where
  | transportRejected (code : Nat)
deriving DecidableEq, Repr

/-- The pending full handshake behind a `Connecting` future that did not
support 0-RTT: how many seconds until it resolves, and with what. -/
structure TimedHandshake where
  secs : Nat
  result : Except ConnError Nat

/-- What `conn_a.into_0rtt()` yields (line 215): `Ok((conn, zero_rtt))`
with an immediately usable connection, or `Err(conn_a)` returning the
pending `Connecting` future to be awaited in full. -/
inductive ZeroRttAttempt where
  | accepted (connId : Nat)
  | notAvailable (full : TimedHandshake)

/-- The handshake deadline of line 220: `Duration::from_secs(30)`. -/
def handshakeTimeoutSecs : Nat := 30

/-- An error ending `handle_quic_connection` during its handshake phase:
the `timeout(...)` elapsed, or the awaited connection itself failed —
both `?`s on line 220. -/
inductive HandshakeError where
  | elapsed
  | conn (e : ConnError)
deriving DecidableEq, Repr

/-- `tokio::time::timeout(limit, fut).await`: yields the future's result
if it resolves within the limit, an elapsed error otherwise. -/
def awaitWithTimeout (limit : Nat) (f : TimedHandshake) :
    Except HandshakeError Nat :=
  if limit < f.secs then .error .elapsed
  else
    match f.result with
    | .ok c => .ok c
    | .error e => .error (.conn e)

/-- The handshake phase of `handle_quic_connection` (lines 215-221): first
attempt 0-RTT; on `Ok` proceed immediately with the connection — no
timeout is started on this branch; on `Err` await the full handshake under
the 30-second deadline, either `?` propagating out of the task. -/
def handshakePhase : ZeroRttAttempt → Except HandshakeError Nat
  | .accepted c => .ok c
  | .notAvailable f => awaitWithTimeout handshakeTimeoutSecs f

/-- The QUIC acceptor (lines 87-97): each accepted `Connecting` is handed
to its own spawned `handle_quic_connection` task; the handshake outcome of
each connection is computed independently of every other connection. -/
def acceptorHandshakes (conns : List ZeroRttAttempt) :
    List (Except HandshakeError Nat) :=
  conns.map handshakePhase

/-- An error from `conn_a.open_bi().await` (line 230). -/
inductive OpenBiError where
  | connectionLost (code : Nat)
deriving DecidableEq, Repr

/-- An error with which the `handle_quic_connection` task's body ends. -/
inductive HandlerError where
  | handshake (e : HandshakeError)
  | streamOpen (e : OpenBiError)
deriving DecidableEq, Repr

/-- The control state of a Tunnel Connection Handler past its handshake:
still in the serving loop, or returned with an error (`?` at line 230).
The source's loop body (lines 225-245) has no path that returns `Ok`. -/
inductive HandlerPhase where
  | serving
  | closedErr (e : HandlerError)
deriving DecidableEq, Repr

/-- A spawned ForwardingSession: the dequeued PendingStream paired with the
freshly opened bidirectional QUIC stream (line 235-243). -/
structure ForwarderSpawn where
  pendingStream : Stream
  quicStream : Nat
deriving DecidableEq, Repr

/-- What `rx_b.recv_async().await` (line 226) yields once it resolves. -/
inductive RecvOutcome where
  | received (s : Stream)
  | disconnected
deriving DecidableEq, Repr

/-- `recv_async` against the channel state: with an item queued it resolves
with the head (atomically removed); empty and open it suspends (`none`: no
step available to this handler); empty and disconnected it resolves at
once with the disconnection error. -/
def recvAsync (q : List Stream) (qopen : Bool) :
    Option (RecvOutcome × List Stream) :=
  match q with
  | s :: rest => some (.received s, rest)
  | [] => if qopen then none else some (.disconnected, [])

/-- One resolution of the serving loop of `handle_quic_connection`
(lines 225-245) given what `recv_async` yielded.  On `Ok(stream_b)`:
`conn_a.open_bi().await?` — an error ends the task body with that error
(the dequeued stream is dropped); success spawns the forwarding future and
continues the inner `while let`.  On `Err(_)` (channel disconnected): the
inner `while let` loop ends, and the whole body being `loop { while let
... }`, the outer `loop` re-enters the `while let`, which calls
`recv_async` again — the handler remains in its serving state. -/
def servingIteration (recv : RecvOutcome) (openBi : Except OpenBiError Nat) :
    HandlerPhase × Option ForwarderSpawn :=
  match recv with
  | .disconnected => (.serving, none)
  | .received s =>
    match openBi with
    | .error e => (.closedErr (.streamOpen e), none)
    | .ok sid => (.serving, some ⟨s, sid⟩)

/-- One scheduling step of a Tunnel Connection Handler in the serving loop,
over the channel state: resolve `recv_async` (if it can resolve) and run
one `servingIteration`.  `openBi` is the outcome `conn_a.open_bi()` would
have on this step. -/
def handlerStep (ph : HandlerPhase) (q : List Stream) (qopen : Bool)
    (openBi : Except OpenBiError Nat) :
    HandlerPhase × List Stream × Option ForwarderSpawn :=
  match ph with
  | .closedErr e => (.closedErr e, q, none)
  | .serving =>
    match recvAsync q qopen with
    | none => (.serving, q, none)
    | some (r, rest) =>
        let it := servingIteration r openBi
        (it.1, rest, it.2)

/-- A run of the handler: one `handlerStep` per scheduled step, the
`open_bi` outcomes of the steps given as a list. -/
def handlerRun (ph : HandlerPhase) (q : List Stream) (qopen : Bool) :
    List (Except OpenBiError Nat) → HandlerPhase × List Stream
  | [] => (ph, q)
  | o :: os =>
      let st := handlerStep ph q qopen o
      handlerRun st.1 st.2.1 qopen os

/-- How the spawned `copy_bidirectional_with_compression` future resolved:
`Ok((a_to_b, b_to_a))` with the two directional byte counts, or an error.
The copy itself is `quic_tunnel::compress` code outside `src/`; only its
result type is needed here. -/
inductive FwdOutcome where
  | success (aToB bToA : Nat)
  | failure (e : String)
deriving DecidableEq, Repr

/-- The completion path of a spawned ForwardingSession as `src` wires it
(lines 235-243): the future is wrapped in `inspect_err(|e| error!("failed:
...", e))` and `inspect_ok(|(a_to_b, b_to_a)| trace!(..., "success"))` and
spawned.  `c` is the process-wide `TunnelCounters` state (line 78); it is
not in scope of `handle_quic_connection` and is passed to no part of the
forwarding call, so the completion path returns it unchanged (the source
marks this: `// TODO: counters while the stream happens`, line 234). -/
def forwarderReport (o : FwdOutcome) (c : TunnelCounters) :
    List LogEntry × TunnelCounters :=
  match o with
  | .failure e => ([LogEntry.logError ("failed: " ++ e)], c)
  | .success a b => ([LogEntry.logTraceSuccess a b], c)

/-- The same completion path as the spec's words describe it (section 4.5):
"report the two directional byte counts ... or the failing error on
failure; update TrafficCounters before returning" — on success the two
counts are added to the process-wide counters. -/
def forwarderReportSpec (o : FwdOutcome) (c : TunnelCounters) :
    List LogEntry × TunnelCounters :=
  match o with
  | .failure e => ([LogEntry.logError ("failed: " ++ e)], c)
  | .success a b =>
      ([LogEntry.logTraceSuccess a b], ⟨c.sentBytes + a, c.recvBytes + b⟩)

/-! ## Theorems -/

/-- Claim C4: with neither `tcp_listen` nor `unix_listen` provided, `main`
returns the configuration error having performed no action at all — in
particular no socket bind and no QUIC endpoint build; with at least one of
them provided, the validation passes (no configuration error). -/
theorem C4_config_validation (cfg : ServerConfig) :
    (cfg.tcpListen = none ∧ cfg.unixListen = none →
      (mainStart cfg).2 = some configValidationError ∧ (mainStart cfg).1 = []) ∧
    (cfg.tcpListen ≠ none ∨ cfg.unixListen ≠ none → (mainStart cfg).2 = none) := by
  constructor
  · rintro ⟨h1, h2⟩
    simp [mainStart, h1, h2]
  · intro h
    have hcond : (cfg.tcpListen.isNone && cfg.unixListen.isNone) = false := by
      rcases h with h | h <;>
        simp [Option.isNone_iff_eq_none, h, Option.ne_none_iff_isSome.mp h]
    simp [mainStart, hcond]

/-- Witness for C4: the claim applied to two concrete configurations, one
with no listener configured and one with a TCP listener. -/
theorem C4_config_validation_witness :
    ((mainStart ⟨"srv", 1, none, none, none, .newReno, .noCompress⟩).2 =
        some configValidationError ∧
      (mainStart ⟨"srv", 1, none, none, none, .newReno, .noCompress⟩).1 = []) ∧
    (mainStart ⟨"srv", 1, some 9000, none, none, .newReno, .noCompress⟩).2 = none := by
  refine ⟨(C4_config_validation _).1 ⟨rfl, rfl⟩, (C4_config_validation _).2 (Or.inl ?_)⟩
  decide

/-- Claim C8: for a bound front-end listener, a failed accept only logs and
the loop keeps running with the queue untouched; a successful accept with
the queue open enqueues the wrapped connection and keeps running; only a
send into a closed queue ends the listener task, with the queue and logs
untouched. -/
theorem C8_listener_loop (wrap : Nat → Stream) (q : List Stream)
    (logs : List LogEntry) (c : Nat) (e : String) :
    (∀ qopen, listenerStep wrap qopen q .running (.acceptFailed e) logs =
      (.running, q, logs ++ [LogEntry.logError "tcp accept failed"])) ∧
    listenerStep wrap true q .running (.accepted c) logs =
      (.running, q ++ [wrap c], logs) ∧
    listenerStep wrap false q .running (.accepted c) logs =
      (.failedSend, q, logs) := by
  refine ⟨fun qopen => ?_, rfl, rfl⟩
  cases qopen <;> rfl

/-- Claim C7: for any first-completing task and any outcome, the supervisor
closes the QUIC endpoint with the application-level reason code `0` /
`"server done"`, this close precedes every abort, every other task handle
is aborted, and no task is ever spawned again (no restart). -/
theorem C7_supervisor_shutdown (w : TaskId) (o : JoinOutcome) (t : TaskId)
    (hne : t ≠ w) :
    (superviseShutdown w o).1 =
      SupAction.logTaskFinished w o :: SupAction.closeEndpoint 0 "server done" ::
        allTasks.map SupAction.abortTask ∧
    SupAction.abortTask t ∈ (superviseShutdown w o).1 ∧
    (∀ i j a, ((superviseShutdown w o).1.get? i = some (SupAction.closeEndpoint 0 "server done") →
      (superviseShutdown w o).1.get? j = some (SupAction.abortTask a) → i < j)) ∧
    (∀ u, SupAction.spawnTask u ∉ (superviseShutdown w o).1) := by
  refine ⟨rfl, ?_, ?_, ?_⟩
  · cases t <;> simp [superviseShutdown, allTasks]
  · intro i j a hi hj
    match i, hi with
    | 1, _ =>
      match j, hj with
      | 2, _ | 3, _ | 4, _ | 5, _ | 6, _ => omega
      | 0, hj | 1, hj => simp [superviseShutdown, allTasks] at hj
      | n + 7, hj => simp [superviseShutdown, allTasks, List.get?_eq_none] at hj
    | 0, hi => simp [superviseShutdown, allTasks] at hi
    | 2, hi | 3, hi | 4, hi | 5, hi | 6, hi => simp [superviseShutdown, allTasks] at hi
    | n + 7, hi => simp [superviseShutdown, allTasks, List.get?_eq_none] at hi
  · intro u
    cases u <;> simp [superviseShutdown, allTasks]

/-- Witness for C7: the claim applied with the TCP listener finishing first
(with an error outcome) and the stats task as the other handle. -/
theorem C7_supervisor_shutdown_witness :
    (superviseShutdown .tcpListener (.finishedErr "bind failed")).1 =
      SupAction.logTaskFinished .tcpListener (.finishedErr "bind failed") ::
        SupAction.closeEndpoint 0 "server done" :: allTasks.map SupAction.abortTask ∧
    SupAction.abortTask .stats ∈
      (superviseShutdown .tcpListener (.finishedErr "bind failed")).1 ∧
    (∀ i j a, ((superviseShutdown .tcpListener (.finishedErr "bind failed")).1.get? i =
        some (SupAction.closeEndpoint 0 "server done") →
      (superviseShutdown .tcpListener (.finishedErr "bind failed")).1.get? j =
        some (SupAction.abortTask a) → i < j)) ∧
    (∀ u, SupAction.spawnTask u ∉
      (superviseShutdown .tcpListener (.finishedErr "bind failed")).1) :=
  C7_supervisor_shutdown .tcpListener (.finishedErr "bind failed") .stats
    (by decide)

/-- Claim C10: whatever task wins the race and however it finished —
normally, with an error, or by panic (a join error) — `main` runs the
shutdown actions and returns `Ok(())`; the triggering outcome appears only
in the log action, never in `main`'s result. -/
theorem C10_main_returns_ok (w : TaskId) (o : JoinOutcome) :
    (superviseShutdown w o).2 = Except.ok () ∧
    SupAction.logTaskFinished w o ∈ (superviseShutdown w o).1 ∧
    (∀ o₂, (superviseShutdown w o).2 = (superviseShutdown w o₂).2) := by
  exact ⟨rfl, by simp [superviseShutdown], fun o₂ => rfl⟩

/-- Claim C9: for every transport family that is not configured, the
corresponding listener task is the pending placeholder; the placeholder
never completes however often it is polled, yields no result (so no error),
and performs no action (no bind, no accept, no enqueue). -/
theorem C9_placeholder_tasks (cfg : ServerConfig) :
    (cfg.tcpListen = none → mkTcpListenerTask cfg.tcpListen = .placeholder) ∧
    (cfg.udpListen = none → mkUdpListenerTask cfg.udpListen = .placeholder) ∧
    (cfg.unixListen = none → mkUnixListenerTask cfg.unixListen = .placeholder) ∧
    (∀ polls, placeholderPoll polls = .stillPending ∧ placeholderActions polls = []) := by
  refine ⟨fun h => ?_, fun h => ?_, fun h => ?_, fun _ => ⟨rfl, rfl⟩⟩ <;>
    simp [h, mkTcpListenerTask, mkUdpListenerTask, mkUnixListenerTask]

/-- Witness for C9: the claim applied to the configuration that listens
only on TCP, whose UDP and Unix families are unconfigured. -/
theorem C9_placeholder_tasks_witness :
    mkUdpListenerTask (ServerConfig.mk "srv" 1 (some 9000) none none
        .newReno .noCompress).udpListen = .placeholder ∧
    mkUnixListenerTask (ServerConfig.mk "srv" 1 (some 9000) none none
        .newReno .noCompress).unixListen = .placeholder ∧
    placeholderPoll 1000 = .stillPending ∧ placeholderActions 1000 = [] := by
  have h := C9_placeholder_tasks
    (ServerConfig.mk "srv" 1 (some 9000) none none .newReno .noCompress)
  exact ⟨h.2.1 rfl, h.2.2.1 rfl, (h.2.2.2 1000).1, (h.2.2.2 1000).2⟩

/-- Conservation invariant of the fan-in channel: every enqueued occurrence
of an item is either still in the queue or was delivered — counted with
multiplicity, enqueues = queued + delivered. -/
theorem fanIn_count_invariant (s : FanInState) (h : FanInReach s) (i : Stream) :
    s.enqHist.count i = s.queue.count i + (s.delivered.map Prod.snd).count i := by
  induction h with
  | start => rfl
  | step s t _ hst ih =>
    cases hst with
    | enqueue j ho =>
      simp only [List.count_append]
      omega
    | dequeue hid j rest hq =>
      simp only [List.map_cons, List.count_cons, hq] at *
      omega
    | disconnect => exact ih

/-- Every delivery record for a given item names the same consumer when the
item was delivered at most once in total. -/
theorem delivered_once_unique (l : List (Nat × Stream)) (i : Stream)
    (hcount : (l.map Prod.snd).count i ≤ 1) :
    ∀ p ∈ l, ∀ q ∈ l, p.2 = i → q.2 = i → p = q := by
  induction l with
  | nil => intro p hp; simp at hp
  | cons hd tl ih =>
    intro p hp q hq hpi hqi
    simp only [List.map_cons, List.count_cons] at hcount
    rcases List.mem_cons.mp hp with hp | hp <;>
      rcases List.mem_cons.mp hq with hq | hq
    · rw [hp, hq]
    · exfalso
      have h1 : (tl.map Prod.snd).count i ≥ 1 :=
        List.one_le_count_iff.mpr (List.mem_map.mpr ⟨q, hq, hqi⟩)
      have h2 : hd.2 = i := by rw [← hp]; exact hpi
      simp [h2] at hcount
      omega
    · exfalso
      have h1 : (tl.map Prod.snd).count i ≥ 1 :=
        List.one_le_count_iff.mpr (List.mem_map.mpr ⟨p, hp, hpi⟩)
      have h2 : hd.2 = i := by rw [← hq]; exact hqi
      simp [h2] at hcount
      omega
    · refine ih ?_ p hp q hq hpi hqi
      omega

/-- Claim C1: in every reachable state of the fan-in system, an item that
was enqueued exactly once is either still in the queue (not lost, not yet
delivered) or was delivered exactly once; and all its delivery records name
one single handler — it is never delivered to two handlers, never
duplicated, and never lost while queued. -/
theorem C1_queue_exactly_once (s : FanInState) (h : FanInReach s) (i : Stream)
    (henq : s.enqHist.count i = 1) :
    ((s.queue.count i = 1 ∧ (s.delivered.map Prod.snd).count i = 0) ∨
      (s.queue.count i = 0 ∧ (s.delivered.map Prod.snd).count i = 1)) ∧
    (∀ p ∈ s.delivered, ∀ q ∈ s.delivered, p.2 = i → q.2 = i → p = q) := by
  have hinv := fanIn_count_invariant s h i
  constructor
  · omega
  · exact delivered_once_unique s.delivered i (by omega)

/-- Witness for C1: a concrete two-step trace — a TCP connection `5` is
enqueued while the queue is open, then handler `7` dequeues it — applied to
the claim: the item ends up delivered exactly once, to one handler. -/
theorem C1_queue_exactly_once_witness :
    (((FanInState.mk [] [(7, Stream.tcp 5)] [Stream.tcp 5] true).queue.count
          (Stream.tcp 5) = 1 ∧
        (((FanInState.mk [] [(7, Stream.tcp 5)] [Stream.tcp 5] true).delivered.map
            Prod.snd).count (Stream.tcp 5) = 0)) ∨
      ((FanInState.mk [] [(7, Stream.tcp 5)] [Stream.tcp 5] true).queue.count
          (Stream.tcp 5) = 0 ∧
        (((FanInState.mk [] [(7, Stream.tcp 5)] [Stream.tcp 5] true).delivered.map
            Prod.snd).count (Stream.tcp 5) = 1))) ∧
    (∀ p ∈ (FanInState.mk [] [(7, Stream.tcp 5)] [Stream.tcp 5] true).delivered,
      ∀ q ∈ (FanInState.mk [] [(7, Stream.tcp 5)] [Stream.tcp 5] true).delivered,
        p.2 = Stream.tcp 5 → q.2 = Stream.tcp 5 → p = q) := by
  have h1 : FanInStep FanInState.start
      (FanInState.mk [Stream.tcp 5] [] [Stream.tcp 5] true) :=
    FanInStep.enqueue FanInState.start (Stream.tcp 5) rfl
  have h2 : FanInStep (FanInState.mk [Stream.tcp 5] [] [Stream.tcp 5] true)
      (FanInState.mk [] [(7, Stream.tcp 5)] [Stream.tcp 5] true) :=
    FanInStep.dequeue (FanInState.mk [Stream.tcp 5] [] [Stream.tcp 5] true)
      7 (Stream.tcp 5) [] rfl
  exact C1_queue_exactly_once _
    (FanInReach.step _ _ (FanInReach.step _ _ FanInReach.start h1) h2)
    (Stream.tcp 5) (by decide)

/-- Claim C5: per inbound connection, 0-RTT is attempted first and its
success branch completes with no bounded wait; the fallback full handshake
runs under the 30-second deadline — exceeding it yields the elapsed error,
a transport rejection within it yields that error, a confirmation within
it yields the connection; and each connection's handshake outcome depends
only on its own attempt (other peers' handlers are unaffected). -/
theorem C5_handshake_timeout (c : Nat) (f : TimedHandshake) :
    handshakePhase (.accepted c) = .ok c ∧
    (30 < f.secs → handshakePhase (.notAvailable f) = .error .elapsed) ∧
    (∀ e, f.secs ≤ 30 → f.result = .error e →
      handshakePhase (.notAvailable f) = .error (.conn e)) ∧
    (∀ cid, f.secs ≤ 30 → f.result = .ok cid →
      handshakePhase (.notAvailable f) = .ok cid) ∧
    (∀ (as bs : List ZeroRttAttempt) (i : Nat), as.get? i = bs.get? i →
      (acceptorHandshakes as).get? i = (acceptorHandshakes bs).get? i) := by
  refine ⟨rfl, ?_, ?_, ?_, ?_⟩
  · intro h
    simp [handshakePhase, awaitWithTimeout, handshakeTimeoutSecs, h]
  · intro e hle he
    simp [handshakePhase, awaitWithTimeout, handshakeTimeoutSecs,
      Nat.not_lt.mpr hle, he]
  · intro cid hle hok
    simp [handshakePhase, awaitWithTimeout, handshakeTimeoutSecs,
      Nat.not_lt.mpr hle, hok]
  · intro as bs i h
    rw [List.get?_eq_getElem?, List.get?_eq_getElem?] at h
    simp [acceptorHandshakes, List.getElem?_map, h]

/-- Witness for C5: the claim applied to a 0-RTT acceptance, a handshake
resolving after 31 seconds (timed out), a transport rejection after 5
seconds, and a confirmation after 5 seconds. -/
theorem C5_handshake_timeout_witness :
    handshakePhase (.accepted 3) = .ok 3 ∧
    handshakePhase (.notAvailable ⟨31, .ok 1⟩) = .error .elapsed ∧
    handshakePhase (.notAvailable ⟨5, .error (.transportRejected 2)⟩) =
      .error (.conn (.transportRejected 2)) ∧
    handshakePhase (.notAvailable ⟨5, .ok 9⟩) = .ok 9 := by
  have h1 := C5_handshake_timeout 3 ⟨31, .ok 1⟩
  have h2 := C5_handshake_timeout 3 ⟨5, .error (.transportRejected 2)⟩
  have h3 := C5_handshake_timeout 3 ⟨5, .ok 9⟩
  exact ⟨h1.1, h1.2.1 (by decide), h2.2.2.1 _ (by decide) rfl,
    h3.2.2.2.1 9 (by decide) rfl⟩

/-- Claim C2, evaluated on the code at the failing scenario: with the
channel disconnected (every sender dropped) and drained, a Serving handler
remains in its serving state after any number of scheduling steps — the
`loop { while let Ok(..) = rx_b.recv_async().await { .. } }` body re-enters
the `while let` each time `recv_async` returns the disconnection error, so
the serving loop never ends and the task never terminates (no transition
to Closed), contrary to the claim. -/
theorem C2_closed_queue_handler_never_ends (obs : List (Except OpenBiError Nat)) :
    handlerRun .serving [] false obs = (.serving, []) := by
  induction obs with
  | nil => rfl
  | cons o os ih =>
    simpa [handlerRun, handlerStep, recvAsync, servingIteration] using ih

/-- Claim C6: a Serving handler that has dequeued a PendingStream and fails
to open the bidirectional QUIC stream ends its serving loop with that error
(the stream-open error becomes the task's result), and the dequeued item is
gone: the queue is left at exactly the remaining tail, the item is not
re-enqueued; the error state is absorbing. -/
theorem C6_stream_open_failure (s : Stream) (rest : List Stream)
    (e : OpenBiError) (qopen : Bool) :
    handlerStep .serving (s :: rest) qopen (.error e) =
      (.closedErr (.streamOpen e), rest, none) ∧
    (s ∉ rest → s ∉ (handlerStep .serving (s :: rest) qopen (.error e)).2.1) ∧
    (∀ q₂ o, handlerStep (.closedErr (.streamOpen e)) q₂ qopen o =
      (.closedErr (.streamOpen e), q₂, none)) := by
  exact ⟨rfl, fun hnotin => hnotin, fun q₂ o => rfl⟩

/-- Witness for C6: handler dequeues TCP connection `1`, `open_bi` fails
with a lost connection; the loop ends closed with that error and the
dequeued item is not in the remaining queue. -/
theorem C6_stream_open_failure_witness :
    handlerStep .serving [Stream.tcp 1, Stream.unix 2] true
        (.error (.connectionLost 4)) =
      (.closedErr (.streamOpen (.connectionLost 4)), [Stream.unix 2], none) ∧
    Stream.tcp 1 ∉ (handlerStep .serving [Stream.tcp 1, Stream.unix 2] true
        (.error (.connectionLost 4))).2.1 := by
  have h := C6_stream_open_failure (Stream.tcp 1) [Stream.unix 2]
    (.connectionLost 4) true
  exact ⟨h.1, h.2.1 (by decide)⟩

/-- Claim C3, counterexample to the claim as stated: a ForwardingSession
completing successfully with byte counts `(5, 7)` leaves the process-wide
`TunnelCounters` exactly as they were — the completion path the source
wires (spawn + `inspect_err`/`inspect_ok`, lines 235-243) passes no
counters to the copy and updates none (`// TODO: counters while the stream
happens`), while the spec's wording would add the two counts. -/
theorem C3_counters_not_updated :
    (forwarderReport (.success 5 7) ⟨0, 0⟩).2 = ⟨0, 0⟩ ∧
    (forwarderReport (.success 5 7) ⟨0, 0⟩).2 ≠
      (forwarderReportSpec (.success 5 7) ⟨0, 0⟩).2 := by
  exact ⟨rfl, by decide⟩

/-- Claim C3 as amended: on completion the spawned ForwardingSession logs
the two directional byte counts on success and logs the failing error on
failure; a failure is only logged — the owning handler, having spawned the
forwarder, is already back in its serving loop and keeps serving subsequent
PendingStreams (the forwarder's outcome is not an input of the handler's
step); and the process-wide TrafficCounters are left unchanged (their
update is an unimplemented TODO in this slice). -/
theorem C3_forwarder_completion (a b : Nat) (e : String) (c : TunnelCounters)
    (s : Stream) (rest : List Stream) (sid : Nat) (qopen : Bool) :
    forwarderReport (.success a b) c = ([LogEntry.logTraceSuccess a b], c) ∧
    forwarderReport (.failure e) c = ([LogEntry.logError ("failed: " ++ e)], c) ∧
    handlerStep .serving (s :: rest) qopen (.ok sid) =
      (.serving, rest, some ⟨s, sid⟩) := by
  exact ⟨rfl, rfl, rfl⟩

end QuicTunnel
